import Mathlib

/-!
Shallow embedding of the CocoPan store monitor
(`store_status_report.py`, `dashboard.py`) and proofs about the
claims of its specification.

Texts (page contents, error messages, urls) are modelled as `List Char`;
Python substring tests (`x in y`) become list-infix tests; fallible
Python code (exceptions) is modelled with explicit outcome inductives
or `Option`.
-/

namespace CocoPan

/-- Boolean substring test on texts: the embedding of the Python
membership test `pat in txt`. -/
def containsSub (pat txt : List Char) : Bool := decide (pat <:+: txt)

/-- The two storefront platforms.  `store_status_report.py` derives the
platform from the url: `"foodpanda"` when `"foodpanda.ph"` occurs in the
url, else `"grabfood"` (line 60 and the branch at line 129). -/
inductive Platform where
  | foodpanda
  | grabfood
deriving DecidableEq, Repr

/-- `platform = "foodpanda" if "foodpanda.ph" in url else "grabfood"`. -/
def platformOf (url : List Char) : Platform :=
  if containsSub "foodpanda.ph".toList url then Platform.foodpanda else Platform.grabfood

/-- The six closed-indicator selectors probed by the foodpanda branch of
`check_store_online` (lines 138-145): four text fragments, one CSS class
and one data-testid marker element. -/
inductive Indicator where
  | textTemporarilyUnavailable
  | textClosedForNow
  | textOutOfDeliveryArea
  | textRestaurantIsClosed
  | closedBannerClass
  | closedBannerTestId
deriving DecidableEq, Repr

/-- The indicator list in the order the code iterates it. -/
def closed_indicators : List Indicator :=
  [Indicator.textTemporarilyUnavailable, Indicator.textClosedForNow,
   Indicator.textOutOfDeliveryArea, Indicator.textRestaurantIsClosed,
   Indicator.closedBannerClass, Indicator.closedBannerTestId]

/-- A rendered foodpanda page after the 3s settle delay, abstracted by
which closed-indicator selectors `page.query_selector` finds. -/
structure RenderedPage where
  present : Indicator → Bool

/-- A parsed grabfood page, abstracted by the text of the designated
`.status-banner` region (`soup.select_one`), `none` when the selector
matches nothing. -/
structure StaticPage where
  banner : Option (List Char)

/-- Outcome of the static HTTP GET (grabfood branch, lines 163-172):
success with a parsed page, an `HTTPError` raised by
`raise_for_status` (non-2xx status), or any other request exception
(connection error, timeout) carrying its message `str(e)`. -/
inductive StaticFetch where
  | ok (p : StaticPage)
  | httpErr
  | otherErr (msg : List Char)

/-- Outcome of the rendered-page navigation (foodpanda branch):
the page loaded and settled, or some playwright exception was raised
(navigation timeout, render error, ...) carrying its message `str(e)`. -/
inductive RenderedFetch where
  | ok (r : RenderedPage)
  | err (msg : List Char)

/-- Input of one probe: the platform branch taken by
`check_store_online` together with that branch's fetch outcome. -/
inductive ProbeFetch where
  | fp (f : RenderedFetch)
  | gf (f : StaticFetch)

/-- The triple returned by `check_store_online`:
`(is_online, response_time, error_message)`. -/
structure CheckResult where
  is_online : Bool
  response_time : Nat
  error_message : Option (List Char)
deriving DecidableEq, Repr

/-- State of the browser session owned by one foodpanda probe:
whether it is still open, and how many times it has been closed. -/
structure SessState where
  isOpen : Bool
  closes : Nat
deriving DecidableEq, Repr

/-- `browser.close()`. -/
def SessState.closeB (s : SessState) : SessState :=
  { isOpen := false, closes := s.closes + 1 }

/-- Exit of the `with sync_playwright()` block: stopping playwright
tears down any browser still open (one extra close), and is a no-op on
an already-closed browser. -/
def SessState.contextExit (s : SessState) : SessState :=
  if s.isOpen then { isOpen := false, closes := s.closes + 1 } else s

/-- Does the rendered page show any of the six closed indicators?
(the `for indicator in closed_indicators` loop, lines 147-151). -/
def anyClosedIndicator (r : RenderedPage) : Bool :=
  closed_indicators.any r.present

/-- The foodpanda branch of `check_store_online` (lines 129-160),
instrumented with the browser-session state and with a flag telling
whether the closed-indicator classification ran.  The browser is
launched (session open), then: on a playwright exception the
exception unwinds out of the `with` block (closing the session by
context teardown) and is caught, returning offline with `str(e)`;
on a settled page, an indicator match closes the browser and returns
offline with reason `"Store shows as closed"`, otherwise the browser
is closed and the probe returns online. -/
def check_foodpanda (f : RenderedFetch) (rt : Nat) : CheckResult × SessState × Bool :=
  let s : SessState := { isOpen := true, closes := 0 }
  match f with
  | RenderedFetch.err msg =>
      (⟨false, rt, some msg⟩, s.contextExit, false)
  | RenderedFetch.ok r =>
      if anyClosedIndicator r then
        (⟨false, rt, some "Store shows as closed".toList⟩, s.closeB.contextExit, true)
      else
        (⟨true, rt, none⟩, s.closeB.contextExit, true)

/-- The grabfood branch of `check_store_online` (lines 163-183), with a
flag telling whether the banner classification ran.  An `HTTPError`
returns offline with reason `"HTTP error"`; any other request exception
returns offline with `str(e)`; otherwise the page is parsed and the
probe is offline exactly when the `.status-banner` region exists and
its text, lowercased, contains `"closed"` as a substring. -/
def check_grabfood (f : StaticFetch) (rt : Nat) : CheckResult × Bool :=
  match f with
  | StaticFetch.httpErr => (⟨false, rt, some "HTTP error".toList⟩, false)
  | StaticFetch.otherErr msg => (⟨false, rt, some msg⟩, false)
  | StaticFetch.ok p =>
      match p.banner with
      | some t =>
          if containsSub "closed".toList (t.map Char.toLower) then
            (⟨false, rt, some "Status banner shows closed".toList⟩, true)
          else
            (⟨true, rt, none⟩, true)
      | none => (⟨true, rt, none⟩, true)

/-- `check_store_online(url)` dispatched on the platform branch, paired
with the flag telling whether the fetched content reached the
classifier. -/
def check_store_online : ProbeFetch → Nat → CheckResult × Bool
  | ProbeFetch.fp f, rt => ((check_foodpanda f rt).1, (check_foodpanda f rt).2.2)
  | ProbeFetch.gf f, rt => check_grabfood f rt

/-- Did the fetch fail (playwright exception / non-2xx HTTP status /
connection error / timeout), as opposed to delivering content? -/
def isFetchFailure : ProbeFetch → Bool
  | ProbeFetch.fp (RenderedFetch.err _) => true
  | ProbeFetch.fp (RenderedFetch.ok _) => false
  | ProbeFetch.gf StaticFetch.httpErr => true
  | ProbeFetch.gf (StaticFetch.otherErr _) => true
  | ProbeFetch.gf (StaticFetch.ok _) => false

/-- The reason string the code records for a failed fetch:
`"HTTP error"` for a non-2xx status, `str(e)` otherwise. -/
def failureReason : ProbeFetch → Option (List Char)
  | ProbeFetch.fp (RenderedFetch.err msg) => some msg
  | ProbeFetch.fp (RenderedFetch.ok _) => none
  | ProbeFetch.gf StaticFetch.httpErr => some "HTTP error".toList
  | ProbeFetch.gf (StaticFetch.otherErr msg) => some msg
  | ProbeFetch.gf (StaticFetch.ok _) => none

/-- Does the successfully fetched content show no recognized
closed-indicator?  For a rendered page: none of the six selectors
matches; for a static page: the status banner is absent or its
lowercased text does not contain `"closed"`.  `false` on failed
fetches. -/
def noClosedIndicator : ProbeFetch → Bool
  | ProbeFetch.fp (RenderedFetch.ok r) => !anyClosedIndicator r
  | ProbeFetch.gf (StaticFetch.ok p) =>
      match p.banner with
      | some t => !(containsSub "closed".toList (t.map Char.toLower))
      | none => true
  | _ => false

/-! ### Retry policy of `save_status_check` (lines 76-104) -/

/-- Outcome of one attempted `INSERT` + `commit` against the store:
success, an `OperationalError` whose message contains
`"database is locked"` (busy store), or any other `OperationalError`. -/
inductive WriteResult where
  | ok
  | locked
  | otherErr
deriving DecidableEq, Repr

/-- What one call of `save_status_check` did, observably:
how many attempts ran, how many rows were inserted and committed, the
total seconds slept in backoff, and whether any error was signalled to
the caller (an escaping exception or a non-`None` return value). -/
structure SaveOutcome where
  attempts : Nat
  rowsWritten : Nat
  totalBackoff : Nat
  signaled : Bool
deriving DecidableEq, Repr

/-- The `for attempt in range(max_retries)` loop of `save_status_check`,
with the store's behaviour on each attempt given by `oracle`.  A
successful attempt inserts exactly one row and returns; a locked error
on attempt `< max_retries - 1` sleeps `attempt + 1` seconds and
retries; any other case prints the error and breaks out of the loop,
and the function then returns `None` to its caller. -/
def saveLoop (oracle : Nat → WriteResult) : Nat → Nat → Nat → SaveOutcome
  | 0, attempt, backoff =>
      { attempts := attempt, rowsWritten := 0, totalBackoff := backoff, signaled := false }
  | fuel + 1, attempt, backoff =>
      match oracle attempt with
      | WriteResult.ok =>
          { attempts := attempt + 1, rowsWritten := 1, totalBackoff := backoff,
            signaled := false }
      | WriteResult.locked =>
          if attempt < 5 - 1 then
            saveLoop oracle fuel (attempt + 1) (backoff + (attempt + 1))
          else
            { attempts := attempt + 1, rowsWritten := 0, totalBackoff := backoff,
              signaled := false }
      | WriteResult.otherErr =>
          { attempts := attempt + 1, rowsWritten := 0, totalBackoff := backoff,
            signaled := false }

/-- `save_status_check` with `max_retries = 5`. -/
def save_status_check (oracle : Nat → WriteResult) : SaveOutcome :=
  saveLoop oracle 5 0 0

/-! ### Summary computation and console report (`main`, lines 266-276,
and `print_summary_report`, lines 186-198) -/

/-- One entry of the in-memory `results` list:
`(name, url, is_online, response_time, error_msg)`. -/
structure ProbeRecord where
  name : List Char
  url : List Char
  is_online : Bool
  response_time : Nat
  error_message : Option (List Char)
deriving DecidableEq, Repr

/-- A row of the `summary_reports` table as `main` inserts it. -/
structure SummaryReportRow where
  total_stores : Nat
  online_stores : Nat
  offline_stores : Nat
  online_percentage : ℚ
deriving DecidableEq, Repr

/-- The summary row built by `main` (lines 266-274):
`online_count` counts the online results, `offline_count` is the
difference, and `online_percentage` is `online/total*100` guarded to
`0` when the results list is empty. -/
def mkSummaryReport (results : List ProbeRecord) : SummaryReportRow :=
  { total_stores := results.length
    online_stores := (results.filter (fun r => r.is_online)).length
    offline_stores := results.length - (results.filter (fun r => r.is_online)).length
    online_percentage :=
      if results.length > 0 then
        (((results.filter (fun r => r.is_online)).length : ℚ) / (results.length : ℚ)) * 100
      else 0 }

/-- The online rate printed by `print_summary_report` (line 198):
`len(online)/len(results)*100` with no zero guard; the Python division
raises `ZeroDivisionError` on an empty results list, modelled as
`none`. -/
def print_summary_rate (results : List ProbeRecord) : Option ℚ :=
  let online := (results.filter (fun r => r.is_online)).length
  if results.length = 0 then none
  else some ((online : ℚ) / (results.length : ℚ) * 100)

/-! ### Store registry (`get_or_create_store`, lines 58-74) -/

/-- A row of the `stores` table. -/
structure Store where
  id : Nat
  name : List Char
  url : List Char
  platform : Platform
deriving DecidableEq, Repr

/-- The rowid `AUTOINCREMENT` assigns to the next inserted store:
one more than the largest id ever used (stores are never deleted). -/
def nextId (stores : List Store) : Nat :=
  (stores.map (fun s => s.id)).foldr max 0 + 1

/-- `get_or_create_store(cursor, name, url)`: look the url up by exact
match (`SELECT id FROM stores WHERE url = ?`); if a row exists return
its id and leave the table alone, otherwise insert
`(name, url, platform)` with the platform derived from the url and
return `lastrowid`.  Returns the id together with the table after the
call. -/
def get_or_create_store (stores : List Store) (name url : List Char) :
    Nat × List Store :=
  match stores.find? (fun s => s.url = url) with
  | some s => (s.id, stores)
  | none =>
      let id := nextId stores
      (id, stores ++ [{ id := id, name := name, url := url, platform := platformOf url }])

/-- A sequence of further `get_or_create_store` calls
(later probes of the same run, or later runs), applied in order. -/
def applyCalls (stores : List Store) : List (List Char × List Char) → List Store
  | [] => stores
  | c :: cs => applyCalls (get_or_create_store stores c.1 c.2).2 cs

/-! ### Run persistence in `main` (lines 226-284) -/

/-- A row of the `status_checks` table as `main` inserts it. -/
structure StatusCheckRow where
  store_id : Nat
  is_online : Bool
  response_time_ms : Option Nat
  error_message : Option (List Char)
deriving DecidableEq, Repr

/-- The durable database state the Aggregator reads:
the committed `status_checks` and `summary_reports` tables. -/
structure DB where
  status_checks : List StatusCheckRow
  summary_reports : List SummaryReportRow
deriving DecidableEq, Repr

/-- The single connection `main` holds for the whole run: the committed
state plus the uncommitted rows inserted on the open transaction. -/
structure Conn where
  db : DB
  pendingChecks : List StatusCheckRow
  pendingSummaries : List SummaryReportRow
deriving DecidableEq, Repr

/-- `conn.commit()`: the pending rows become durably visible. -/
def Conn.commit (c : Conn) : Conn :=
  { db := { status_checks := c.db.status_checks ++ c.pendingChecks
            summary_reports := c.db.summary_reports ++ c.pendingSummaries }
    pendingChecks := []
    pendingSummaries := [] }

/-- `conn.rollback()`: the pending rows are discarded; the committed
state is untouched. -/
def Conn.rollback (c : Conn) : Conn :=
  { c with pendingChecks := [], pendingSummaries := [] }

/-- The probe data `main` turns into one `status_checks` insert. -/
structure ProbeOutcome where
  store_id : Nat
  is_online : Bool
  response_time : Nat
  error_message : Option (List Char)
deriving DecidableEq, Repr

/-- The `status_checks` row inserted for one probe (lines 256-259). -/
def toCheckRow (p : ProbeOutcome) : StatusCheckRow :=
  { store_id := p.store_id, is_online := p.is_online,
    response_time_ms := some p.response_time, error_message := p.error_message }

/-- The summary row `main` computes from the run's results
(lines 266-274), restated over `ProbeOutcome`s. -/
def summaryOf (results : List ProbeOutcome) : SummaryReportRow :=
  mkSummaryReport (results.map (fun p =>
    { name := [], url := [], is_online := p.is_online,
      response_time := p.response_time, error_message := p.error_message }))

/-- Where, if anywhere, persistence fails during the run. -/
inductive FailPoint where
  | ok
  | atCheckInsert (i : Nat)
  | atSummaryInsert
deriving DecidableEq, Repr

/-- The persistence skeleton of `main` (lines 226-284).  All
`status_checks` inserts go to the single open transaction, then
`conn.commit()` (line 264); then the one `summary_reports` insert,
then a second `conn.commit()` (line 276).  An exception anywhere is
caught by the handler (line 278), which calls `conn.rollback()` and
closes the connection.  `FailPoint.atCheckInsert i` raises while
inserting the `i`-th check (before the first commit);
`FailPoint.atSummaryInsert` raises on the summary insert (after the
first commit).  Returns the committed database state the Aggregator
sees afterwards. -/
def mainRun (db : DB) (results : List ProbeOutcome) (fp : FailPoint) : DB :=
  let conn : Conn := { db := db, pendingChecks := [], pendingSummaries := [] }
  match fp with
  | FailPoint.atCheckInsert i =>
      let conn := { conn with pendingChecks := (results.take i).map toCheckRow }
      conn.rollback.db
  | FailPoint.atSummaryInsert =>
      let conn := { conn with pendingChecks := results.map toCheckRow }
      let conn := conn.commit
      conn.rollback.db
  | FailPoint.ok =>
      let conn := { conn with pendingChecks := results.map toCheckRow }
      let conn := conn.commit
      let conn := { conn with pendingSummaries := [summaryOf results] }
      conn.commit.db

/-! ### Hourly rollup of the dashboard (`load_data`, lines 220-233) -/

/-- A `summary_reports` row as the dashboard reads it: the stored
online percentage and the `report_time` timestamp, modelled as seconds
since an epoch, in UTC (SQLite `CURRENT_TIMESTAMP`). -/
structure SummaryRow where
  online_percentage : ℚ
  report_time : Nat
deriving DecidableEq, Repr

/-- `DATE(t)`: the UTC calendar day of a timestamp. -/
def dateOf (t : Nat) : Nat := t / 86400

/-- `strftime(%H, t)`: the UTC hour-of-day of a timestamp. -/
def hourOf (t : Nat) : Nat := t % 86400 / 3600

/-- SQLite `ROUND(x, 0)` on the nonnegative averages involved here:
round half away from zero. -/
def sqliteRound (q : ℚ) : ℤ := ⌊q + 1 / 2⌋

/-- One output row of the hourly query. -/
structure HourRow where
  hour : Nat
  online_pct : ℤ
  offline_pct : ℤ
  data_points : Nat
deriving DecidableEq, Repr

/-- The hourly query of `load_data` (lines 221-231):
keep the `summary_reports` rows with
`DATE(report_time) = DATE(now, +8 hours)` — the row's UTC calendar
day against the UTC+8 calendar day of the current instant — group
them by `strftime(%H, report_time)`, and emit per hour the rounded
average of `online_percentage`, the rounded average of
`100 - online_percentage`, and `COUNT(*)`, ordered by hour. -/
def hourly_rollup (rows : List SummaryRow) (now : Nat) : List HourRow :=
  let todayLocal := dateOf (now + 8 * 3600)
  let sel := rows.filter (fun r => dateOf r.report_time = todayLocal)
  ((List.range 24).filter (fun h => sel.any (fun r => hourOf r.report_time = h))).map
    (fun h =>
      let grp := sel.filter (fun r => hourOf r.report_time = h)
      { hour := h
        online_pct := sqliteRound ((grp.map (fun r => r.online_percentage)).sum / grp.length)
        offline_pct := sqliteRound ((grp.map (fun r => 100 - r.online_percentage)).sum / grp.length)
        data_points := grp.length })

/-- The day restriction the specification describes: the row's
`report_time`, shifted to the fixed UTC+8 local timezone, falls on the
current local calendar day. -/
def onLocalDay (reportTime now : Nat) : Bool :=
  dateOf (reportTime + 8 * 3600) = dateOf (now + 8 * 3600)

/-- Modelled from the spec (amended after the C3 counterexample): the
static-page classifier recognizes a closure exactly when the designated
status-indicator region exists and its text contains `"closed"` as a
case-insensitive substring — there is no further keyword and no generic
block-level scan. -/
def amendedStaticClosed (p : StaticPage) : Bool :=
  match p.banner with
  | some t => containsSub "closed".toList (t.map Char.toLower)
  | none => false

/-! ### Helper lemmas -/

lemma containsSub_iff (pat txt : List Char) :
    containsSub pat txt = true ↔ pat <:+: txt := by
  simp [containsSub]

lemma saveLoop_attempts_le (oracle : Nat → WriteResult) :
    ∀ fuel attempt backoff,
      (saveLoop oracle fuel attempt backoff).attempts ≤ attempt + fuel := by
  intro fuel
  induction fuel with
  | zero =>
      intro attempt backoff
      show attempt ≤ attempt + 0
      omega
  | succ m ih =>
      intro attempt backoff
      unfold saveLoop
      split
      · show attempt + 1 ≤ attempt + (m + 1)
        omega
      · split
        · exact le_trans (ih (attempt + 1) (backoff + (attempt + 1))) (by omega)
        · show attempt + 1 ≤ attempt + (m + 1)
          omega
      · show attempt + 1 ≤ attempt + (m + 1)
        omega

lemma saveLoop_rows_le (oracle : Nat → WriteResult) :
    ∀ fuel attempt backoff,
      (saveLoop oracle fuel attempt backoff).rowsWritten ≤ 1 := by
  intro fuel
  induction fuel with
  | zero =>
      intro attempt backoff
      show (0 : Nat) ≤ 1
      omega
  | succ m ih =>
      intro attempt backoff
      unfold saveLoop
      split
      · show (1 : Nat) ≤ 1
        omega
      · split
        · exact ih (attempt + 1) (backoff + (attempt + 1))
        · show (0 : Nat) ≤ 1
          omega
      · show (0 : Nat) ≤ 1
        omega

lemma saveLoop_signaled (oracle : Nat → WriteResult) :
    ∀ fuel attempt backoff,
      (saveLoop oracle fuel attempt backoff).signaled = false := by
  intro fuel
  induction fuel with
  | zero =>
      intro attempt backoff
      rfl
  | succ m ih =>
      intro attempt backoff
      unfold saveLoop
      split
      · rfl
      · split
        · exact ih (attempt + 1) (backoff + (attempt + 1))
        · rfl
      · rfl

lemma goc_preserves_find (stores : List Store) (n v u : List Char) (r : Store)
    (h : stores.find? (fun s => s.url = u) = some r) :
    ((get_or_create_store stores n v).2).find? (fun s => s.url = u) = some r := by
  unfold get_or_create_store
  cases hv : stores.find? (fun s => s.url = v) with
  | some s => simpa using h
  | none => simp [List.find?_append, h, Option.or]

lemma applyCalls_preserves_find (calls : List (List Char × List Char))
    (stores : List Store) (u : List Char) (r : Store)
    (h : stores.find? (fun s => s.url = u) = some r) :
    (applyCalls stores calls).find? (fun s => s.url = u) = some r := by
  induction calls generalizing stores with
  | nil => simpa [applyCalls] using h
  | cons c cs ih =>
      exact ih (get_or_create_store stores c.1 c.2).2
        (goc_preserves_find stores c.1 c.2 u r h)

lemma goc_find_self (stores : List Store) (n u : List Char) :
    ∃ r, ((get_or_create_store stores n u).2).find? (fun s => s.url = u) = some r
      ∧ r.id = (get_or_create_store stores n u).1 := by
  cases h : stores.find? (fun s => s.url = u) with
  | some s =>
      refine ⟨s, ?_, ?_⟩ <;> simp [get_or_create_store, h]
  | none =>
      refine ⟨{ id := nextId stores, name := n, url := u, platform := platformOf u },
        ?_, ?_⟩ <;>
        simp [get_or_create_store, h, List.find?_append, Option.or]

lemma goc_of_find (stores : List Store) (n u : List Char) (r : Store)
    (h : stores.find? (fun s => s.url = u) = some r) :
    get_or_create_store stores n u = (r.id, stores) := by
  simp [get_or_create_store, h]

/-! ### The claims -/

/-- C1, counterexample.  The claim says: if persistence fails after some
StatusCheck rows are written but before the SummaryReport row, none of
the run's rows are visible to the Aggregator.  In the code the
StatusCheck inserts are committed (line 264) before the summary insert:
starting from an empty database, a one-store run whose persistence
fails at the summary insert leaves the run's StatusCheck row durably
visible while no SummaryReport row exists — the run is not
all-or-nothing. -/
theorem C1_run_atomicity_counterexample :
    (mainRun { status_checks := [], summary_reports := [] }
        [{ store_id := 1, is_online := true, response_time := 100, error_message := none }]
        FailPoint.atSummaryInsert).status_checks ≠ []
    ∧ (mainRun { status_checks := [], summary_reports := [] }
        [{ store_id := 1, is_online := true, response_time := 100, error_message := none }]
        FailPoint.atSummaryInsert).summary_reports = [] := by
  constructor
  · decide
  · rfl

/-- C1, amended.  The run's rows are committed in two units, not one:
a failure while the StatusCheck rows are being inserted (before the
first commit) leaves the database exactly as before the run (that part
of the claim holds); but a failure at the summary insert, after the
first commit, leaves all the run's StatusCheck rows visible with no
SummaryReport row; an untroubled run commits the StatusCheck rows and
then the SummaryReport row. -/
theorem C1_run_atomicity_amended (db : DB) (results : List ProbeOutcome) (i : Nat) :
    mainRun db results (FailPoint.atCheckInsert i) = db
    ∧ (mainRun db results FailPoint.atSummaryInsert).status_checks
        = db.status_checks ++ results.map toCheckRow
    ∧ (mainRun db results FailPoint.atSummaryInsert).summary_reports
        = db.summary_reports
    ∧ mainRun db results FailPoint.ok
        = { status_checks := db.status_checks ++ results.map toCheckRow
            summary_reports := db.summary_reports ++ [summaryOf results] } := by
  refine ⟨?_, ?_, ?_, ?_⟩ <;>
    simp [mainRun, Conn.commit, Conn.rollback]

/-- C2, counterexample.  The claim says that when all 5 attempts fail
the failure is surfaced to the caller.  In the code, exhausting the
retries (a busy store on every attempt) prints the error and breaks:
the function returns `None`, no exception escapes and no error value is
returned — the caller cannot tell the write was lost. -/
theorem C2_retry_surfacing_counterexample :
    (save_status_check (fun _ => WriteResult.locked)).attempts = 5
    ∧ (save_status_check (fun _ => WriteResult.locked)).rowsWritten = 0
    ∧ (save_status_check (fun _ => WriteResult.locked)).signaled = false := by
  decide

/-- C2, amended.  Every write through `save_status_check` is attempted
at most 5 times, writes at most one row, and never signals an error to
the caller — even when all attempts fail, the failure is logged and
swallowed.  Scenario D holds: a store busy on attempts 1 and 2 and free
on attempt 3 gives a successful write of exactly one row after a total
backoff of 1 + 2 seconds. -/
theorem C2_retry_policy_amended (oracle : Nat → WriteResult) :
    (save_status_check oracle).attempts ≤ 5
    ∧ (save_status_check oracle).rowsWritten ≤ 1
    ∧ (save_status_check oracle).signaled = false
    ∧ save_status_check (fun a => if a < 2 then WriteResult.locked else WriteResult.ok)
        = { attempts := 3, rowsWritten := 1, totalBackoff := 3, signaled := false } := by
  refine ⟨?_, saveLoop_rows_le oracle 5 0 0, saveLoop_signaled oracle 5 0 0, by decide⟩
  simpa using saveLoop_attempts_le oracle 5 0 0

/-- C3, counterexample.  The claim says a status-indicator region whose
text contains `"temporarily unavailable"` (one of the closed-keywords)
makes the static classification offline.  The code only tests the
substring `"closed"`: a page whose `.status-banner` text is
`"Temporarily unavailable"` is classified online. -/
theorem C3_static_rules_counterexample :
    containsSub "temporarily unavailable".toList
        ((StaticPage.mk (some "Temporarily unavailable".toList)).banner.getD []
          |>.map Char.toLower) = true
    ∧ (check_store_online
        (ProbeFetch.gf (StaticFetch.ok
          (StaticPage.mk (some "Temporarily unavailable".toList)))) 0).1.is_online
        = true := by
  constructor
  · decide
  · decide

/-- C3, amended.  Static-page classification has a single rule: the
result is offline exactly when the designated `.status-banner` region
exists and its text contains `"closed"` as a case-insensitive
substring; there is no keyword list beyond `"closed"` and no generic
scan of block-level text nodes, and the absence of a match yields
online. -/
theorem C3_static_rules_amended (p : StaticPage) (rt : Nat) :
    (check_store_online (ProbeFetch.gf (StaticFetch.ok p)) rt).1.is_online
      = !amendedStaticClosed p := by
  cases hb : p.banner with
  | none => simp [check_store_online, check_grabfood, amendedStaticClosed, hb]
  | some t =>
      simp only [check_store_online, check_grabfood, amendedStaticClosed, hb]
      split <;> simp_all

/-- C4.  A failed fetch — playwright exception on the rendered branch,
non-2xx HTTP status, connection error or timeout on the static branch —
always yields `is_online = false` with the failure's reason string as
`error_message`, and the classifier is never reached.  The branch flag
of `check_store_online` records whether the closed-indicator /
status-banner classification ran; `check_store_online` is a total
function: every exception of the probe is caught inside it, so no
probe failure is process-fatal. -/
theorem C4_fetch_failure_short_circuit (input : ProbeFetch) (rt : Nat)
    (h : isFetchFailure input = true) :
    (check_store_online input rt).1.is_online = false
    ∧ (check_store_online input rt).1.error_message = failureReason input
    ∧ (check_store_online input rt).2 = false := by
  cases input with
  | fp f =>
      cases f <;>
        simp_all [check_store_online, check_foodpanda, isFetchFailure, failureReason]
  | gf f =>
      cases f <;>
        simp_all [check_store_online, check_grabfood, isFetchFailure, failureReason]

/-- C4, witness: the HTTP-error probe of Scenario B. -/
theorem C4_fetch_failure_short_circuit_witness :
    isFetchFailure (ProbeFetch.gf StaticFetch.httpErr) = true
    ∧ ((check_store_online (ProbeFetch.gf StaticFetch.httpErr) 5).1.is_online = false
      ∧ (check_store_online (ProbeFetch.gf StaticFetch.httpErr) 5).1.error_message
          = failureReason (ProbeFetch.gf StaticFetch.httpErr)
      ∧ (check_store_online (ProbeFetch.gf StaticFetch.httpErr) 5).2 = false) :=
  ⟨rfl, C4_fetch_failure_short_circuit (ProbeFetch.gf StaticFetch.httpErr) 5 rfl⟩

/-- C5.  Every summary row `main` builds satisfies
`total_stores = online_stores + offline_stores`, and its
`online_percentage` is exactly `100 * online / total`, with `0` when
`total_stores = 0`. -/
theorem C5_summary_report_invariant (results : List ProbeRecord) :
    (mkSummaryReport results).total_stores
      = (mkSummaryReport results).online_stores + (mkSummaryReport results).offline_stores
    ∧ (mkSummaryReport results).online_percentage
      = (if (mkSummaryReport results).total_stores = 0 then 0
         else 100 * ((mkSummaryReport results).online_stores : ℚ)
              / ((mkSummaryReport results).total_stores : ℚ)) := by
  have hle := List.length_filter_le (fun r => r.is_online) results
  constructor
  · simp only [mkSummaryReport]
    omega
  · simp only [mkSummaryReport]
    by_cases h0 : results.length = 0
    · simp [h0]
    · rw [if_pos (by omega : results.length > 0), if_neg h0]
      ring

/-- C6.  Registry resolution is idempotent and first-write-wins:
resolving a url immediately again (with any other name candidate)
returns the same `store_id` and leaves the stores table unchanged; the
stored row for the url — hence its name and platform — is untouched by
any sequence of later `get_or_create_store` calls; and resolving the
url again after such a sequence (a later run) still returns the same
`store_id`.  Lookup is by exact url match throughout. -/
theorem C6_registry_first_write_wins (stores : List Store)
    (calls : List (List Char × List Char)) (n n2 u : List Char) :
    get_or_create_store (get_or_create_store stores n u).2 n2 u
      = get_or_create_store stores n u
    ∧ (applyCalls (get_or_create_store stores n u).2 calls).find?
        (fun s => s.url = u)
      = ((get_or_create_store stores n u).2).find? (fun s => s.url = u)
    ∧ (get_or_create_store
        (applyCalls (get_or_create_store stores n u).2 calls) n2 u).1
      = (get_or_create_store stores n u).1 := by
  obtain ⟨r, hfind, hid⟩ := goc_find_self stores n u
  have hcalls := applyCalls_preserves_find calls _ u r hfind
  refine ⟨?_, hcalls.trans hfind.symm, ?_⟩
  · rw [goc_of_find _ n2 u r hfind, hid]
  · rw [goc_of_find _ n2 u r hcalls, hid]

/-- C7.  Fetched content with no recognized closed-indicator is
classified online on both platforms: a rendered page matching none of
the six indicator selectors, and a static page whose status banner is
absent or free of the `"closed"` substring, both yield
`is_online = true` (the optimistic default). -/
theorem C7_classifier_asymmetry (input : ProbeFetch) (rt : Nat)
    (h : noClosedIndicator input = true) :
    (check_store_online input rt).1.is_online = true := by
  cases input with
  | fp f =>
      cases f with
      | ok r => simp_all [check_store_online, check_foodpanda, noClosedIndicator]
      | err m => simp [noClosedIndicator] at h
  | gf f =>
      cases f with
      | ok p =>
          cases hb : p.banner <;>
            simp_all [check_store_online, check_grabfood, noClosedIndicator]
      | httpErr => simp [noClosedIndicator] at h
      | otherErr m => simp [noClosedIndicator] at h

/-- C7, witness: a rendered page matching none of the indicators. -/
theorem C7_classifier_asymmetry_witness :
    noClosedIndicator (ProbeFetch.fp (RenderedFetch.ok (RenderedPage.mk fun _ => false)))
      = true
    ∧ (check_store_online
        (ProbeFetch.fp (RenderedFetch.ok (RenderedPage.mk fun _ => false))) 7).1.is_online
      = true :=
  ⟨rfl, C7_classifier_asymmetry
    (ProbeFetch.fp (RenderedFetch.ok (RenderedPage.mk fun _ => false))) 7 rfl⟩

/-- C8.  The hourly query filters with
`DATE(report_time) = DATE(now, +8 hours)`: it compares the row's UTC
calendar day against the UTC+8 calendar day of the current instant,
instead of shifting `report_time` by `+8 hours` as the sibling queries
in `load_data` do.  Concretely, with the current instant at 21:00 UTC
(05:00 of local day 1), a summary row recorded at 20:00 UTC falls on
the current local calendar day (04:00 of local day 1), yet the rollup
excludes it and returns no rows at all. -/
theorem C8_hourly_rollup_day_filter :
    onLocalDay 72000 75600 = true
    ∧ hourly_rollup [{ online_percentage := 50, report_time := 72000 }] 75600 = [] := by
  constructor
  · decide
  · decide

/-- C9.  The browser session a foodpanda probe launches is closed
exactly once and left closed on every exit path: a playwright
exception unwinds out of the `with sync_playwright()` block, whose
teardown closes the still-open browser; a closed-indicator match calls
`browser.close()` before returning; a clean pass calls
`browser.close()` before returning — and the context teardown never
closes an already-closed browser a second time. -/
theorem C9_browser_session_closed_once (f : RenderedFetch) (rt : Nat) :
    ((check_foodpanda f rt).2.1).closes = 1
    ∧ ((check_foodpanda f rt).2.1).isOpen = false := by
  cases f with
  | err m => simp [check_foodpanda, SessState.contextExit]
  | ok r =>
      by_cases h : anyClosedIndicator r <;>
        simp [check_foodpanda, h, SessState.closeB, SessState.contextExit]

/-- C10.  On an empty checked-results list, `print_summary_report`
evaluates `len(online)/len(results)*100` with no zero guard, so the
console digest fails with a `ZeroDivisionError` (modelled as `none`),
while the persisted summary computed by `main` guards `total = 0` and
records `online_percentage = 0`. -/
theorem C10_empty_run_reporting_division_by_zero :
    print_summary_rate [] = none
    ∧ (mkSummaryReport []).online_percentage = 0 := by
  constructor
  · rfl
  · rfl

end CocoPan
